import Mathlib

/-!
Verification of the linktoqr short-code redirect service.

The repository contains two parallel implementations of the same service:
an Express server (`server.js` backed by the better-sqlite3 layer `db.js`)
and a Next.js app (`app/api/...` routes backed by the Turso layer
`lib/db.js`).  Both store `qr_codes` rows with columns
`short_code, destination_url, user_id, scan_count, created_at,
last_scanned_at, expires_at, password, is_active`.

This file shallowly embeds the SQL prepared statements as pure functions
over a list of rows, and the HTTP handlers as functions from a request to
a response together with the updated table, and proves or refutes the
frozen claims about them.
-/

namespace LinkToQR

/-- One row of the `qr_codes` table.  `user_id` is a nullable integer
column, `last_scanned_at`/`expires_at` nullable timestamps (modelled as
`Option Nat`), `password` the nullable bcrypt hash column, `is_active`
the soft-delete flag (SQLite integer 0/1, modelled as `Bool`).
The autoincrement `id` column is carried implicitly by list position and
`created_at` is a timestamp filled with the insertion time. -/
structure QRRecord where
  short_code : String
  destination_url : String
  user_id : Option Nat
  scan_count : Nat
  created_at : Nat
  last_scanned_at : Option Nat
  expires_at : Option Nat
  password : Option String
  is_active : Bool
deriving DecidableEq, Repr

/-- One row of the `users` table (the columns the QR routes read). -/
structure UserRec where
  id : Nat
  plan : String
deriving DecidableEq, Repr

/-- The durable store: the two tables the QR routes touch. -/
structure AppDB where
  users : List UserRec
  qrs : List QRRecord
deriving DecidableEq, Repr

/-- `stmts.findByCode` / `findByCode`:
`SELECT * FROM qr_codes WHERE short_code = ? AND is_active = 1`
(identical in `db.js` and `lib/db.js`; `short_code` is UNIQUE so the
first match is the row). -/
def findByCode (qrs : List QRRecord) (code : String) : Option QRRecord :=
  qrs.find? (fun r => r.short_code == code && r.is_active)

/-- `stmts.incrementScan` (Express `db.js`):
`UPDATE qr_codes SET scan_count = scan_count + 1,
 last_scanned_at = datetime('now') WHERE short_code = ?`.
Note: no `is_active` condition. -/
def incrementScan (now : Nat) (qrs : List QRRecord) (code : String) :
    List QRRecord :=
  qrs.map (fun r =>
    if r.short_code == code then
      { r with scan_count := r.scan_count + 1, last_scanned_at := some now }
    else r)

/-- `incrementScan` (Next.js `lib/db.js`):
`UPDATE qr_codes SET scan_count = scan_count + 1 WHERE short_code = ?`.
Note: no `is_active` condition and no `last_scanned_at` update. -/
def incrementScanLib (qrs : List QRRecord) (code : String) :
    List QRRecord :=
  qrs.map (fun r =>
    if r.short_code == code then { r with scan_count := r.scan_count + 1 }
    else r)

/-- SQL equality `user_id = ?` against a non-NULL integer parameter:
a stored NULL `user_id` compares unequal to every integer. -/
def sqlOwnerEq (stored : Option Nat) (uid : Nat) : Bool :=
  stored == some uid

/-- `stmts.updateDestination` (identical SQL in both layers):
`UPDATE qr_codes SET destination_url = ? WHERE short_code = ? AND user_id = ?`.
Returns the updated table and the number of affected rows (`changes` /
`rowsAffected`).  Note: no `is_active` condition. -/
def updateDestination (qrs : List QRRecord) (url code : String) (uid : Nat) :
    List QRRecord × Nat :=
  (qrs.map (fun r =>
      if r.short_code == code && sqlOwnerEq r.user_id uid then
        { r with destination_url := url }
      else r),
   (qrs.filter (fun r => r.short_code == code && sqlOwnerEq r.user_id uid)).length)

/-- `stmts.deleteQR` (identical SQL in both layers):
`UPDATE qr_codes SET is_active = 0 WHERE short_code = ? AND user_id = ?`. -/
def deleteQR (qrs : List QRRecord) (code : String) (uid : Nat) :
    List QRRecord × Nat :=
  (qrs.map (fun r =>
      if r.short_code == code && sqlOwnerEq r.user_id uid then
        { r with is_active := false }
      else r),
   (qrs.filter (fun r => r.short_code == code && sqlOwnerEq r.user_id uid)).length)

/-- `stmts.countUserQRs` (Express `db.js`):
`SELECT COUNT(*) as count FROM qr_codes WHERE user_id = ?` —
counts ALL rows of the owner, with no `is_active` filter. -/
def countUserQRs (qrs : List QRRecord) (uid : Nat) : Nat :=
  (qrs.filter (fun r => sqlOwnerEq r.user_id uid)).length

/-- `countUserQRs` (Next.js `lib/db.js`):
`SELECT COUNT(*) as count FROM qr_codes WHERE user_id = ? AND is_active = 1`. -/
def countUserQRsLib (qrs : List QRRecord) (uid : Nat) : Nat :=
  (qrs.filter (fun r => sqlOwnerEq r.user_id uid && r.is_active)).length

/-- `stmts.findUserById`: `SELECT id, email, plan ... FROM users WHERE id = ?`. -/
def findUserById (users : List UserRec) (uid : Nat) : Option UserRec :=
  users.find? (fun u => u.id == uid)

/-- `stmts.createQR`:
`INSERT INTO qr_codes (short_code, destination_url, user_id, expires_at,
 password) VALUES (?, ?, ?, ?, ?)` with `scan_count` defaulting to 0,
`is_active` to 1 and `created_at` to now.  The UNIQUE constraint on
`short_code` makes the insert throw on a duplicate code, modelled as
`none`. -/
def createQR (now : Nat) (qrs : List QRRecord) (code url : String)
    (uid : Option Nat) (expiresAt : Option Nat) (pwHash : Option String) :
    Option (List QRRecord) :=
  if qrs.any (fun r => r.short_code == code) then none
  else some (qrs ++ [{ short_code := code, destination_url := url,
                       user_id := uid, scan_count := 0, created_at := now,
                       last_scanned_at := none, expires_at := expiresAt,
                       password := pwHash, is_active := true }])

/-! ### URL validation (`new URL(url)` and the handler checks) -/

/-- Characters allowed after the first character of a URL scheme. -/
def isSchemeChar (c : Char) : Bool :=
  c.isAlphanum || c == '+' || c == '-' || c == '.'

/-- Scans scheme characters up to the first `':'`; `none` when no colon
terminates the scheme. -/
def takeScheme : List Char → Option (List Char)
  | [] => none
  | c :: cs =>
      if c == ':' then some []
      else if isSchemeChar c then (takeScheme cs).map (c :: ·)
      else none

/-- Model of the scheme-parsing fragment of the WHATWG `new URL(url)`
constructor that the handlers rely on: parsing succeeds when the string
starts with an ASCII letter followed by scheme characters and a `':'`,
and the result's `protocol` is that scheme including the colon. -/
def parseProtocol (s : String) : Option String :=
  match s.data with
  | [] => none
  | c :: cs =>
      if c.isAlpha then
        (takeScheme cs).map (fun sch => String.mk (c :: (sch ++ [':'])))
      else none

/-- Outcome of the URL checks a handler performs before touching the DB. -/
inductive UrlCheck where
  | required
  | invalidFormat
  | badProtocol
  | tooLong
  | ok
deriving DecidableEq, Repr

/-- URL validation of the create handlers (`POST /api/qr`, identical in
`server.js` and `app/api/qr/route.js`): missing/empty URL, then
`new URL(url)` parse, then the http/https protocol allow-list, then the
2048-character bound. -/
def checkCreateUrl (url : String) : UrlCheck :=
  if url == "" then .required
  else
    match parseProtocol url with
    | none => .invalidFormat
    | some p =>
        if !(p == "http:" || p == "https:") then .badProtocol
        else if url.length > 2048 then .tooLong
        else .ok

/-- URL validation of the update handlers (`PUT /api/qr/:code`, identical
in `server.js` and `app/api/qr/[code]/route.js`): only a missing-URL
check and a bare `new URL(url)` parse — no protocol allow-list and no
length bound. -/
def checkUpdateUrl (url : String) : UrlCheck :=
  if url == "" then .required
  else
    match parseProtocol url with
    | none => .invalidFormat
    | some _ => .ok

/-! ### bcrypt model -/

/-- Model of `bcrypt.compareSync(plain, stored)` for a deterministic
hash function `hashFn` standing for `bcrypt.hashSync(·, 10)`: the
comparison succeeds exactly when the stored hash is the hash of the
plaintext.  `hashFn` is kept abstract as a parameter. -/
def compareSync (hashFn : String → String) (plain stored : String) : Bool :=
  hashFn plain == stored

/-- JavaScript truthiness of a nullable string column (`null` and `""`
are falsy). -/
def jsTruthyStr : Option String → Bool
  | none => false
  | some s => s != ""

/-! ### Redirect resolver (`GET /r/:code`) -/

/-- `qr.expires_at && new Date(qr.expires_at) < new Date()`:
a set expiry strictly in the past. -/
def isExpired (now : Nat) (expiresAt : Option Nat) : Bool :=
  match expiresAt with
  | some t => t < now
  | none => false

/-- The password gate of the redirect handler:
`!providedPw || !bcrypt.compareSync(providedPw, qr.password)` —
an absent or empty `pw` query parameter is falsy, otherwise the bcrypt
comparison decides. -/
def passwordDenied (hashFn : String → String) (stored : String)
    (pw : Option String) : Bool :=
  match pw with
  | none => true
  | some p => p == "" || !compareSync hashFn p stored

/-- Observable outcome of the redirect handler: the not-found fallback
surface (404 landing page / redirect home), the 410 expired response,
the password-prompt surface, or the 302 redirect to the destination. -/
inductive RedirectResponse where
  | notFoundPage
  | expiredGone
  | passwordPrompt
  | redirect (dest : String)
deriving DecidableEq, Repr

/-- The redirect handler `GET /r/:code` (`server.js` lines 325–355):
look up the active row, short-circuit on expiry, then on a failed
password gate, otherwise increment the scan counter and 302-redirect to
the stored destination.  Returns the response and the updated table. -/
def resolveCode (hashFn : String → String) (now : Nat)
    (qrs : List QRRecord) (code : String) (pw : Option String) :
    RedirectResponse × List QRRecord :=
  match findByCode qrs code with
  | none => (.notFoundPage, qrs)
  | some qr =>
      if isExpired now qr.expires_at then (.expiredGone, qrs)
      else if jsTruthyStr qr.password &&
              passwordDenied hashFn (qr.password.getD "") pw then
        (.passwordPrompt, qrs)
      else
        (.redirect qr.destination_url, incrementScan now qrs code)

/-! ### Create handler (`POST /api/qr`) -/

/-- `PLAN_LIMITS = { free: 2, pro: 50, business: Infinity }` with the
lookup `PLAN_LIMITS[user.plan] || PLAN_LIMITS.free` (an unknown plan
falls back to the free limit).  `none` models `Infinity`. -/
def planLimit (plan : String) : Option Nat :=
  if plan == "free" then some 2
  else if plan == "pro" then some 50
  else if plan == "business" then none
  else some 2

/-- `count >= limit` in JavaScript: always false against `Infinity`. -/
def limitReached (count : Nat) : Option Nat → Bool
  | some n => count ≥ n
  | none => false

/-- Observable outcome of the create handler.  `quotaExceeded` is the
403 response carrying `upgrade: true`, distinct from the 400
`badRequest` validation responses; `serverError` is the catch-all 500. -/
inductive CreateResponse where
  | badRequest (check : UrlCheck)
  | quotaExceeded
  | created (shortCode destinationUrl : String)
  | serverError
deriving DecidableEq, Repr

/-- The create handler `POST /api/qr` (`server.js` lines 254–311, same
logic in `app/api/qr/route.js` except for the quota count — see
`postApiQrNext`): validate the URL, for an authenticated caller check
the plan quota against `countUserQRs` (the Express count, which has no
`is_active` filter), hash a truthy password, insert with a freshly
generated code.  A UNIQUE-violation throw from the insert is caught by
the surrounding try/catch and becomes the 500 response. -/
def postApiQr (hashFn : String → String) (now : Nat) (db : AppDB)
    (freshCode url : String) (expiresAt : Option Nat)
    (password : Option String) (userId : Option Nat) :
    CreateResponse × AppDB :=
  match checkCreateUrl url with
  | .ok =>
      let quotaBlocked :=
        match userId with
        | none => some false
        | some uid =>
            match findUserById db.users uid with
            | none => none
            | some user =>
                some (limitReached (countUserQRs db.qrs uid)
                        (planLimit user.plan))
      match quotaBlocked with
      | none => (.serverError, db)
      | some true => (.quotaExceeded, db)
      | some false =>
          let hashedPw :=
            match password with
            | some p => if p == "" then none else some (hashFn p)
            | none => none
          match createQR now db.qrs freshCode url userId expiresAt hashedPw with
          | none => (.serverError, db)
          | some qrs2 => (.created freshCode url, { db with qrs := qrs2 })
  | c => (.badRequest c, db)

/-- The create handler of `app/api/qr/route.js`, identical to
`postApiQr` except that the quota compares `countUserQRs` of
`lib/db.js`, which counts only `is_active = 1` rows. -/
def postApiQrNext (hashFn : String → String) (now : Nat) (db : AppDB)
    (freshCode url : String) (expiresAt : Option Nat)
    (password : Option String) (userId : Option Nat) :
    CreateResponse × AppDB :=
  match checkCreateUrl url with
  | .ok =>
      let quotaBlocked :=
        match userId with
        | none => some false
        | some uid =>
            match findUserById db.users uid with
            | none => none
            | some user =>
                some (limitReached (countUserQRsLib db.qrs uid)
                        (planLimit user.plan))
      match quotaBlocked with
      | none => (.serverError, db)
      | some true => (.quotaExceeded, db)
      | some false =>
          let hashedPw :=
            match password with
            | some p => if p == "" then none else some (hashFn p)
            | none => none
          match createQR now db.qrs freshCode url userId expiresAt hashedPw with
          | none => (.serverError, db)
          | some qrs2 => (.created freshCode url, { db with qrs := qrs2 })
  | c => (.badRequest c, db)

/-! ### Update handler (`PUT /api/qr/:code`) -/

/-- Observable outcome of the update handler.  `notFoundOrNotOwned` is
the single 404 response covering both a missing code and a foreign
owner. -/
inductive UpdateResponse where
  | badRequest (check : UrlCheck)
  | notFoundOrNotOwned
  | updated (shortCode newUrl : String)
deriving DecidableEq, Repr

/-- The update handler `PUT /api/qr/:code` (`server.js` lines 392–417,
same logic in `app/api/qr/[code]/route.js`): requires an authenticated
caller `uid`, validates the URL with `checkUpdateUrl` (parse only),
runs `updateDestination`, and maps zero affected rows to the single
not-found-or-not-owned response. -/
def putApiQr (db : AppDB) (code url : String) (uid : Nat) :
    UpdateResponse × AppDB :=
  match checkUpdateUrl url with
  | .ok =>
      let res := updateDestination db.qrs url code uid
      if res.2 == 0 then (.notFoundOrNotOwned, db)
      else (.updated code url, { db with qrs := res.1 })
  | c => (.badRequest c, db)

/-! ### Concrete fixtures used by witnesses and counterexamples -/

/-- An active owned record. -/
def exRec : QRRecord :=
  { short_code := "c1", destination_url := "https://a.example/",
    user_id := some 1, scan_count := 0, created_at := 0,
    last_scanned_at := none, expires_at := none, password := none,
    is_active := true }

/-- A soft-deleted record owned by user 7. -/
def exInactive : QRRecord :=
  { exRec with short_code := "c2", user_id := some 7, is_active := false }

/-- A store for user 1 on the free plan holding only two soft-deleted
records. -/
def exQuotaDB : AppDB :=
  { users := [{ id := 1, plan := "free" }],
    qrs := [{ exRec with is_active := false },
            { exRec with short_code := "c2", is_active := false }] }

/-- A password-protected record (hash under the identity hash model). -/
def exPwRec : QRRecord :=
  { exRec with short_code := "c3", password := some "secret123" }

/-! ### Theorems -/

/-- C2 counterexample: user 1 on the free plan (limit 2) owns only two
soft-deleted records — zero active ones — yet the `server.js` creation
path rejects with the quota-exceeded signal, because
`stmts.countUserQRs` counts deactivated rows too. -/
theorem quota_counts_inactive_cx :
    countUserQRsLib exQuotaDB.qrs 1 = 0 ∧
    planLimit "free" = some 2 ∧
    postApiQr id 0 exQuotaDB "ZZZZZZZZ" "https://example.com/" none none
      (some 1) = (.quotaExceeded, exQuotaDB) := by
  decide

/-- C3 counterexample: creation classifies `ftp://example.com/x` as a
forbidden protocol, but the update handler accepts it and stores it as
the destination of an existing record, breaking the http/https
invariant. -/
theorem update_breaks_http_invariant_cx :
    checkCreateUrl "ftp://example.com/x" = .badProtocol ∧
    putApiQr { users := [], qrs := [exRec] } "c1" "ftp://example.com/x" 1 =
      (.updated "c1" "ftp://example.com/x",
       { users := [],
         qrs := [{ exRec with destination_url := "ftp://example.com/x" }] }) := by
  decide

/-- C4 counterexample: `updateDestination` on a soft-deleted record whose
owner matches reports one affected row and rewrites the destination —
the `is_active` flag is not part of the statement's WHERE clause. -/
theorem update_mutates_inactive_cx :
    exInactive.is_active = false ∧
    updateDestination [exInactive] "https://new.example/" "c2" 7 =
      ([{ exInactive with destination_url := "https://new.example/" }], 1) := by
  decide

/-- C5 counterexample: when the freshly generated code collides with an
existing row, the create handler returns the 500 server error at once
and inserts nothing — there is no regenerate-and-retry loop. -/
theorem create_no_retry_cx :
    postApiQr id 0 { users := [], qrs := [exRec] } "c1"
      "https://example.com/" none none none =
      (.serverError, { users := [], qrs := [exRec] }) := by
  decide

/-- C9 counterexample: `incrementScan` bumps the counter of a
soft-deleted record (the Express statement also stamps
`last_scanned_at`), and the `lib/db.js` variant never sets
`last_scanned_at` even for an active record. -/
theorem incrementScan_touches_inactive_cx :
    exInactive.is_active = false ∧
    incrementScan 100 [exInactive] "c2" =
      [{ exInactive with scan_count := 1, last_scanned_at := some 100 }] ∧
    incrementScanLib [exRec] "c1" = [{ exRec with scan_count := 1 }] := by
  decide

/-- C2 amended: with a valid URL and an existing user, the Express
creation path rejects with the quota signal exactly when the count of
ALL the owner's rows (deactivated included, `countUserQRs` of `db.js`)
reaches the plan limit, while the Next.js creation path compares the
count of active rows only; the quota signal is distinct from every
validation response. -/
theorem quota_check_amended (hashFn : String → String) (now : Nat)
    (db : AppDB) (freshCode url : String) (expiresAt : Option Nat)
    (password : Option String) (uid : Nat) (user : UserRec)
    (hurl : checkCreateUrl url = .ok)
    (huser : findUserById db.users uid = some user) :
    ((postApiQr hashFn now db freshCode url expiresAt password
        (some uid)).1 = .quotaExceeded ↔
      limitReached (countUserQRs db.qrs uid) (planLimit user.plan) = true) ∧
    ((postApiQrNext hashFn now db freshCode url expiresAt password
        (some uid)).1 = .quotaExceeded ↔
      limitReached (countUserQRsLib db.qrs uid) (planLimit user.plan) = true) ∧
    (∀ c, CreateResponse.quotaExceeded ≠ CreateResponse.badRequest c) := by
  refine ⟨?_, ?_, fun c h => by cases h⟩
  · simp only [postApiQr, hurl, huser]
    cases h : limitReached (countUserQRs db.qrs uid) (planLimit user.plan)
    · cases hc : createQR now db.qrs freshCode url (some uid) expiresAt
        (match password with
         | some p => if p == "" then none else some (hashFn p)
         | none => none) <;> simp [hc]
    · simp
  · simp only [postApiQrNext, hurl, huser]
    cases h : limitReached (countUserQRsLib db.qrs uid) (planLimit user.plan)
    · cases hc : createQR now db.qrs freshCode url (some uid) expiresAt
        (match password with
         | some p => if p == "" then none else some (hashFn p)
         | none => none) <;> simp [hc]
    · simp

/-- C2 witness: instantiating the amended quota theorem on the fixture
store shows the quota rejection fires for an owner whose records are all
deactivated. -/
theorem quota_check_amended_w :
    (postApiQr id 0 exQuotaDB "Z8Z8Z8Z8" "https://example.com/" none none
      (some 1)).1 = .quotaExceeded := by
  have h := quota_check_amended id 0 exQuotaDB "Z8Z8Z8Z8"
    "https://example.com/" none none 1 { id := 1, plan := "free" }
    (by decide) (by decide)
  exact h.1.mpr (by decide)

/-- C3 amended: the creation check admits only http/https URLs of at
most 2048 characters, but the update check accepts every parseable URL
(any scheme, any length), so updates do not preserve the invariant. -/
theorem url_validation_amended (url : String) :
    (checkCreateUrl url = .ok →
      (parseProtocol url = some "http:" ∨ parseProtocol url = some "https:") ∧
      url.length ≤ 2048) ∧
    (url ≠ "" → parseProtocol url ≠ none → checkUpdateUrl url = .ok) := by
  constructor
  · intro h
    unfold checkCreateUrl at h
    by_cases he : url = ""
    · simp [he] at h
    · rw [if_neg (by simpa using he)] at h
      cases hp : parseProtocol url with
      | none => rw [hp] at h; cases h
      | some p =>
          rw [hp] at h
          by_cases h1 : p = "http:"
          · refine ⟨Or.inl (by rw [h1]), ?_⟩
            subst h1
            simp at h
            omega
          · by_cases h2 : p = "https:"
            · refine ⟨Or.inr (by rw [h2]), ?_⟩
              subst h2
              simp at h
              omega
            · exfalso
              simp [h1, h2] at h
  · intro he hp
    unfold checkUpdateUrl
    cases hq : parseProtocol url with
    | none => exact absurd hq hp
    | some p => simp [he, hq]

/-- C3 witness: a non-http scheme passes the update-side validation. -/
theorem url_validation_amended_w :
    checkUpdateUrl "ftp://example.com/x" = .ok :=
  (url_validation_amended "ftp://example.com/x").2 (by decide) (by decide)

/-- C4 amended: `updateDestination` reports zero affected rows exactly
when no row has the given code and owner; on zero affected rows the
table is unchanged; and every row whose code and owner match — active or
soft-deleted alike — gets its destination rewritten. -/
theorem updateDestination_amended (qrs : List QRRecord) (url code : String)
    (uid : Nat) :
    ((updateDestination qrs url code uid).2 = 0 ↔
      ∀ r ∈ qrs, ¬(r.short_code = code ∧ r.user_id = some uid)) ∧
    ((updateDestination qrs url code uid).2 = 0 →
      (updateDestination qrs url code uid).1 = qrs) ∧
    (∀ r ∈ qrs, r.short_code = code → r.user_id = some uid →
      { r with destination_url := url } ∈
        (updateDestination qrs url code uid).1) := by
  refine ⟨?_, ?_, ?_⟩
  · simp [updateDestination, List.length_eq_zero, List.filter_eq_nil_iff,
      sqlOwnerEq, not_and]
  · intro h
    simp only [updateDestination] at h ⊢
    rw [List.length_eq_zero, List.filter_eq_nil_iff] at h
    have : ∀ r ∈ qrs,
        (if r.short_code == code && sqlOwnerEq r.user_id uid then
          { r with destination_url := url } else r) = r := by
      intro r hr
      have := h r hr
      rw [if_neg (by simpa using this)]
    calc (updateDestination qrs url code uid).1
        = qrs.map (fun r => r) := List.map_congr_left this
      _ = qrs := List.map_id qrs
  · intro r hr hc ho
    have hf : (if r.short_code == code && sqlOwnerEq r.user_id uid then
        { r with destination_url := url } else r) =
        { r with destination_url := url } := by
      rw [if_pos (by simp [hc, sqlOwnerEq, ho])]
    exact hf ▸ List.mem_map_of_mem _ hr

/-- C4 witness: the amended theorem applied to the soft-deleted fixture
record shows its destination is rewritten despite `is_active = 0`. -/
theorem updateDestination_amended_w :
    { exInactive with destination_url := "https://new.example/" } ∈
      (updateDestination [exInactive] "https://new.example/" "c2" 7).1 :=
  (updateDestination_amended [exInactive] "https://new.example/" "c2" 7).2.2
    exInactive (by simp) rfl rfl

/-- C5 amended: when the single generated code collides with any
existing row, the create request (anonymous here) ends in the 500
server-error response with the store unchanged — the handler never
regenerates a code. -/
theorem create_collision_amended (hashFn : String → String) (now : Nat)
    (db : AppDB) (freshCode url : String) (expiresAt : Option Nat)
    (password : Option String)
    (hurl : checkCreateUrl url = .ok)
    (hcol : ∃ r ∈ db.qrs, r.short_code = freshCode) :
    postApiQr hashFn now db freshCode url expiresAt password none =
      (.serverError, db) := by
  have hany : db.qrs.any (fun r => r.short_code == freshCode) = true := by
    rcases hcol with ⟨r, hr, hc⟩
    exact List.any_eq_true.mpr ⟨r, hr, by simp [hc]⟩
  simp [postApiQr, createQR, hurl, hany]

/-- C5 witness: a colliding code on the fixture store yields the 500
response. -/
theorem create_collision_amended_w :
    postApiQr id 0 { users := [], qrs := [exRec] } "c1"
      "https://example.com/" none none none =
      (.serverError, { users := [], qrs := [exRec] }) :=
  create_collision_amended id 0 { users := [], qrs := [exRec] } "c1"
    "https://example.com/" none none (by decide) ⟨exRec, by simp, rfl⟩

/-- C9 amended: both `incrementScan` statements are no-ops exactly when
no row carries the code; every row carrying the code — soft-deleted
rows included — has its counter bumped by one, with `last_scanned_at`
stamped by the Express statement and left untouched by the `lib/db.js`
statement. -/
theorem incrementScan_amended (now : Nat) (qrs : List QRRecord)
    (code : String) :
    ((∀ r ∈ qrs, r.short_code ≠ code) →
      incrementScan now qrs code = qrs ∧ incrementScanLib qrs code = qrs) ∧
    (∀ r ∈ qrs, r.short_code = code →
      { r with scan_count := r.scan_count + 1,
               last_scanned_at := some now } ∈ incrementScan now qrs code ∧
      { r with scan_count := r.scan_count + 1 } ∈
        incrementScanLib qrs code) := by
  constructor
  · intro h
    constructor
    · calc incrementScan now qrs code
          = qrs.map (fun r => r) := by
            apply List.map_congr_left
            intro r hr
            rw [if_neg (by simp [h r hr])]
        _ = qrs := List.map_id qrs
    · calc incrementScanLib qrs code
          = qrs.map (fun r => r) := by
            apply List.map_congr_left
            intro r hr
            rw [if_neg (by simp [h r hr])]
        _ = qrs := List.map_id qrs
  · intro r hr hc
    constructor
    · have hf : (if r.short_code == code then
          { r with scan_count := r.scan_count + 1,
                   last_scanned_at := some now } else r) =
          { r with scan_count := r.scan_count + 1,
                   last_scanned_at := some now } := by
        rw [if_pos (by simp [hc])]
      exact hf ▸ List.mem_map_of_mem _ hr
    · have hf : (if r.short_code == code then
          { r with scan_count := r.scan_count + 1 } else r) =
          { r with scan_count := r.scan_count + 1 } := by
        rw [if_pos (by simp [hc])]
      exact hf ▸ List.mem_map_of_mem _ hr

/-- C9 witness: the amended theorem applied to the soft-deleted fixture
record shows its counter is bumped. -/
theorem incrementScan_amended_w :
    { exInactive with scan_count := 1, last_scanned_at := some 100 } ∈
      incrementScan 100 [exInactive] "c2" := by
  have h := (incrementScan_amended 100 [exInactive] "c2").2
    exInactive (by simp) rfl
  simpa using h.1

/-- Looking up a code after the scan increment finds the same row with
its counter bumped: the increment rewrites neither `short_code` nor
`is_active`, so the `findByCode` predicate is unchanged. -/
theorem findByCode_incrementScan (now : Nat) (qrs : List QRRecord)
    (code : String) :
    findByCode (incrementScan now qrs code) code =
      (findByCode qrs code).map (fun r =>
        if r.short_code == code then
          { r with scan_count := r.scan_count + 1,
                   last_scanned_at := some now }
        else r) := by
  unfold findByCode incrementScan
  rw [List.find?_map]
  have hpf : ((fun r : QRRecord => r.short_code == code && r.is_active) ∘
      (fun r : QRRecord =>
        if r.short_code == code then
          { r with scan_count := r.scan_count + 1,
                   last_scanned_at := some now }
        else r)) =
      (fun r : QRRecord => r.short_code == code && r.is_active) := by
    funext r
    by_cases hc : (r.short_code == code) = true
    · simp [Function.comp, hc]
    · simp [Function.comp, hc]
  rw [hpf]

/-- C1: the redirect resolver settles NOT_FOUND, EXPIRED,
PASSWORD_REQUIRED, ALLOWED in that order, each check short-circuiting;
on ALLOWED the looked-up row's counter is bumped by exactly one, and in
every other outcome the table is untouched. -/
theorem resolve_decision_order (hashFn : String → String) (now : Nat)
    (qrs : List QRRecord) (code : String) (pw : Option String) :
    ((resolveCode hashFn now qrs code pw).1 = .notFoundPage ↔
      findByCode qrs code = none) ∧
    ((resolveCode hashFn now qrs code pw).1 = .expiredGone ↔
      ∃ qr, findByCode qrs code = some qr ∧
        isExpired now qr.expires_at = true) ∧
    ((resolveCode hashFn now qrs code pw).1 = .passwordPrompt ↔
      ∃ qr, findByCode qrs code = some qr ∧
        isExpired now qr.expires_at = false ∧
        (jsTruthyStr qr.password &&
          passwordDenied hashFn (qr.password.getD "") pw) = true) ∧
    (∀ qr, findByCode qrs code = some qr →
      isExpired now qr.expires_at = false →
      (jsTruthyStr qr.password &&
        passwordDenied hashFn (qr.password.getD "") pw) = false →
      (resolveCode hashFn now qrs code pw).1 = .redirect qr.destination_url ∧
      findByCode (resolveCode hashFn now qrs code pw).2 code =
        some { qr with scan_count := qr.scan_count + 1,
                       last_scanned_at := some now }) ∧
    ((∀ d, (resolveCode hashFn now qrs code pw).1 ≠ .redirect d) →
      (resolveCode hashFn now qrs code pw).2 = qrs) := by
  cases hf : findByCode qrs code with
  | none =>
      refine ⟨by simp [resolveCode, hf], by simp [resolveCode, hf],
        by simp [resolveCode, hf], by simp [hf], by simp [resolveCode, hf]⟩
  | some qr =>
      have hqc : (qr.short_code == code) = true := by
        have h0 := hf
        unfold findByCode at h0
        have hp := List.find?_some h0
        simp only [Bool.and_eq_true] at hp
        exact hp.1
      cases he : isExpired now qr.expires_at with
      | true =>
          refine ⟨by simp [resolveCode, hf, he], ?_, ?_, ?_, ?_⟩
          · simp only [resolveCode, hf, he]
            exact ⟨fun _ => ⟨qr, rfl, he⟩, fun _ => rfl⟩
          · simp [resolveCode, hf, he]
          · intro qr' hq' he' _
            injection hq' with hqq
            subst hqq
            simp [he] at he'
          · intro _
            simp [resolveCode, hf, he]
      | false =>
          cases hd : (jsTruthyStr qr.password &&
              passwordDenied hashFn (qr.password.getD "") pw) with
          | true =>
              refine ⟨by simp [resolveCode, hf, he, hd], ?_, ?_, ?_, ?_⟩
              · simp [resolveCode, hf, he, hd]
              · simp only [resolveCode, hf, he, hd]
                exact ⟨fun _ => ⟨qr, rfl, he, hd⟩, fun _ => by simp⟩
              · intro qr' hq' _ hd'
                injection hq' with hqq
                subst hqq
                simp [hd] at hd'
              · intro _
                simp [resolveCode, hf, he, hd]
          | false =>
              have hres : resolveCode hashFn now qrs code pw =
                  (.redirect qr.destination_url, incrementScan now qrs code) := by
                simp [resolveCode, hf, he, hd]
              refine ⟨by simp [hres], by simp [hres, he], ?_, ?_, ?_⟩
              · simp only [hres]
                constructor
                · intro h
                  exact absurd h (by simp)
                · rintro ⟨qr', hq', -, hd'⟩
                  injection hq' with hqq
                  subst hqq
                  simp [hd] at hd'
              · intro qr' hq' _ _
                injection hq' with hqq
                subst hqq
                refine ⟨by simp [hres], ?_⟩
                simp only [hres]
                rw [findByCode_incrementScan, hf]
                have hqc2 : qr.short_code = code := by simpa using hqc
                simp [hqc2]
              · intro hno
                exact absurd (by simp [hres]) (hno qr.destination_url)

/-- C1 witness: resolving the open fixture record yields the redirect
decision with its counter bumped to one. -/
theorem resolve_decision_order_w :
    (resolveCode id 5 [exRec] "c1" none).1 =
      .redirect "https://a.example/" ∧
    findByCode (resolveCode id 5 [exRec] "c1" none).2 "c1" =
      some { exRec with scan_count := 1, last_scanned_at := some 5 } := by
  have h := (resolve_decision_order id 5 [exRec] "c1" none).2.2.2.1
    exRec (by decide) (by decide) (by decide)
  exact ⟨h.1, by simpa using h.2⟩

/-- C6: a code with no row at all and a code whose only rows are
soft-deleted produce the very same observable outcome — the not-found
fallback with the store untouched — so the response cannot reveal
whether the code ever existed. -/
theorem notfound_uniform (hashFn : String → String) (now : Nat)
    (code : String) (pw : Option String) (qrs1 qrs2 : List QRRecord)
    (h1 : ∀ r ∈ qrs1, r.short_code ≠ code)
    (h2 : ∀ r ∈ qrs2, r.short_code = code → r.is_active = false) :
    resolveCode hashFn now qrs1 code pw = (.notFoundPage, qrs1) ∧
    resolveCode hashFn now qrs2 code pw = (.notFoundPage, qrs2) ∧
    (resolveCode hashFn now qrs1 code pw).1 =
      (resolveCode hashFn now qrs2 code pw).1 := by
  have hn1 : findByCode qrs1 code = none := by
    apply List.find?_eq_none.mpr
    intro r hr
    simp [h1 r hr]
  have hn2 : findByCode qrs2 code = none := by
    apply List.find?_eq_none.mpr
    intro r hr hcontra
    rw [Bool.and_eq_true] at hcontra
    have hc : r.short_code = code := by simpa using hcontra.1
    rw [h2 r hr hc] at hcontra
    cases hcontra.2
  refine ⟨?_, ?_, ?_⟩ <;> simp [resolveCode, hn1, hn2]

/-- C6 witness: the empty store and a store holding only the
soft-deleted fixture record answer a lookup of its code identically. -/
theorem notfound_uniform_w :
    resolveCode id 0 [] "c2" none = (.notFoundPage, []) ∧
    resolveCode id 0 [exInactive] "c2" none =
      (.notFoundPage, [exInactive]) := by
  have h := notfound_uniform id 0 "c2" none [] [exInactive]
    (by decide) (by decide)
  exact ⟨h.1, h.2.1⟩

/-- C7: on a password-protected record, supplying no credential and
supplying a wrong credential produce the identical prompt response with
the store untouched — the two cases are indistinguishable. -/
theorem password_gate_uniform (hashFn : String → String) (now : Nat)
    (qrs : List QRRecord) (code wrong : String) (qr : QRRecord)
    (hfind : findByCode qrs code = some qr)
    (hexp : isExpired now qr.expires_at = false)
    (hpw : jsTruthyStr qr.password = true)
    (hwrong : compareSync hashFn wrong (qr.password.getD "") = false) :
    resolveCode hashFn now qrs code none = (.passwordPrompt, qrs) ∧
    resolveCode hashFn now qrs code (some wrong) = (.passwordPrompt, qrs) := by
  have hd1 : passwordDenied hashFn (qr.password.getD "") none = true := rfl
  have hd2 : passwordDenied hashFn (qr.password.getD "") (some wrong) = true := by
    simp [passwordDenied, hwrong]
  constructor <;> simp [resolveCode, hfind, hexp, hpw, hd1, hd2]

/-- C7 witness: the protected fixture record prompts identically for a
missing and for a wrong password. -/
theorem password_gate_uniform_w :
    resolveCode id 0 [exPwRec] "c3" none = (.passwordPrompt, [exPwRec]) ∧
    resolveCode id 0 [exPwRec] "c3" (some "wrong") =
      (.passwordPrompt, [exPwRec]) :=
  password_gate_uniform id 0 [exPwRec] "c3" "wrong" exPwRec
    (by decide) (by decide) (by decide) (by decide)

/-- C8: when every row carrying a code is anonymous (`user_id` NULL),
`updateDestination` and `deleteQR` leave the store unchanged and report
zero affected rows for every caller; conversely an affected row demands
a stored owner equal to the caller's id. -/
theorem anonymous_records_immutable (qrs : List QRRecord)
    (url code : String) (uid : Nat) :
    ((∀ r ∈ qrs, r.short_code = code → r.user_id = none) →
      updateDestination qrs url code uid = (qrs, 0) ∧
      deleteQR qrs code uid = (qrs, 0)) ∧
    ((updateDestination qrs url code uid).2 ≠ 0 →
      ∃ r ∈ qrs, r.short_code = code ∧ r.user_id = some uid) ∧
    ((deleteQR qrs code uid).2 ≠ 0 →
      ∃ r ∈ qrs, r.short_code = code ∧ r.user_id = some uid) := by
  have hmem : ∀ r ∈ qrs,
      (r.short_code == code && sqlOwnerEq r.user_id uid) = true →
      r.short_code = code ∧ r.user_id = some uid := by
    intro r _ hp
    rw [Bool.and_eq_true] at hp
    exact ⟨by simpa using hp.1, by simpa [sqlOwnerEq] using hp.2⟩
  refine ⟨?_, ?_, ?_⟩
  · intro h
    have hpred : ∀ r ∈ qrs,
        (r.short_code == code && sqlOwnerEq r.user_id uid) = false := by
      intro r hr
      by_cases hc : r.short_code = code
      · simp [sqlOwnerEq, hc, h r hr hc]
      · simp [hc]
    have hmap : ∀ (f : QRRecord → QRRecord),
        qrs.map (fun r =>
          if r.short_code == code && sqlOwnerEq r.user_id uid then f r
          else r) = qrs := by
      intro f
      calc qrs.map (fun r =>
            if r.short_code == code && sqlOwnerEq r.user_id uid then f r
            else r)
          = qrs.map (fun r => r) := by
            apply List.map_congr_left
            intro r hr
            rw [if_neg (by simp [hpred r hr])]
        _ = qrs := List.map_id qrs
    have hfil : (qrs.filter (fun r =>
        r.short_code == code && sqlOwnerEq r.user_id uid)) = [] := by
      apply List.filter_eq_nil_iff.mpr
      intro r hr
      simp [hpred r hr]
    constructor
    · unfold updateDestination
      rw [hmap, hfil]
      rfl
    · unfold deleteQR
      rw [hmap, hfil]
      rfl
  · intro h
    have hne : (qrs.filter (fun r =>
        r.short_code == code && sqlOwnerEq r.user_id uid)) ≠ [] := by
      intro hc
      apply h
      simp only [updateDestination]
      rw [hc]
      rfl
    rcases List.exists_mem_of_ne_nil _ hne with ⟨r, hr⟩
    rw [List.mem_filter] at hr
    exact ⟨r, hr.1, hmem r hr.1 hr.2⟩
  · intro h
    have hne : (qrs.filter (fun r =>
        r.short_code == code && sqlOwnerEq r.user_id uid)) ≠ [] := by
      intro hc
      apply h
      simp only [deleteQR]
      rw [hc]
      rfl
    rcases List.exists_mem_of_ne_nil _ hne with ⟨r, hr⟩
    rw [List.mem_filter] at hr
    exact ⟨r, hr.1, hmem r hr.1 hr.2⟩

/-- An anonymously created record (`user_id` NULL). -/
def exAnon : QRRecord :=
  { exRec with short_code := "c4", user_id := none }

/-- C8 witness: no caller can touch the anonymous fixture record. -/
theorem anonymous_records_immutable_w :
    updateDestination [exAnon] "https://n.example/" "c4" 1 = ([exAnon], 0) ∧
    deleteQR [exAnon] "c4" 1 = ([exAnon], 0) :=
  (anonymous_records_immutable [exAnon] "https://n.example/" "c4" 1).1
    (by decide)

/-- C10: creating with an empty-string password stores no hash
(JavaScript `password ? hash : null` is falsy on `""`), and the freshly
created code then resolves straight to the redirect with no credential
supplied. -/
theorem empty_password_resolves_open (hashFn : String → String)
    (now now2 : Nat) (db : AppDB) (freshCode url : String)
    (hurl : checkCreateUrl url = .ok)
    (hfresh : ∀ r ∈ db.qrs, r.short_code ≠ freshCode) :
    ∃ qrs2,
      postApiQr hashFn now db freshCode url none (some "") none =
        (.created freshCode url, { db with qrs := qrs2 }) ∧
      (∃ qr, findByCode qrs2 freshCode = some qr ∧ qr.password = none) ∧
      (resolveCode hashFn now2 qrs2 freshCode none).1 = .redirect url := by
  have hany : db.qrs.any (fun r => r.short_code == freshCode) = false := by
    apply List.any_eq_false.mpr
    intro r hr
    simp [hfresh r hr]
  refine ⟨db.qrs ++
    [{ short_code := freshCode, destination_url := url, user_id := none,
       scan_count := 0, created_at := now, last_scanned_at := none,
       expires_at := none, password := none, is_active := true }], ?_, ?_, ?_⟩
  · simp [postApiQr, hurl, createQR, hany]
  · have hfb : findByCode (db.qrs ++
        [{ short_code := freshCode, destination_url := url, user_id := none,
           scan_count := 0, created_at := now, last_scanned_at := none,
           expires_at := none, password := none, is_active := true }])
        freshCode =
        some { short_code := freshCode, destination_url := url,
               user_id := none, scan_count := 0, created_at := now,
               last_scanned_at := none, expires_at := none, password := none,
               is_active := true } := by
      unfold findByCode
      rw [List.find?_append]
      have hn : db.qrs.find?
          (fun r => r.short_code == freshCode && r.is_active) = none := by
        apply List.find?_eq_none.mpr
        intro r hr
        simp [hfresh r hr]
      rw [hn]
      simp
    exact ⟨_, hfb, rfl⟩
  · have hfb : findByCode (db.qrs ++
        [{ short_code := freshCode, destination_url := url, user_id := none,
           scan_count := 0, created_at := now, last_scanned_at := none,
           expires_at := none, password := none, is_active := true }])
        freshCode =
        some { short_code := freshCode, destination_url := url,
               user_id := none, scan_count := 0, created_at := now,
               last_scanned_at := none, expires_at := none, password := none,
               is_active := true } := by
      unfold findByCode
      rw [List.find?_append]
      have hn : db.qrs.find?
          (fun r => r.short_code == freshCode && r.is_active) = none := by
        apply List.find?_eq_none.mpr
        intro r hr
        simp [hfresh r hr]
      rw [hn]
      simp
    simp [resolveCode, hfb, isExpired, jsTruthyStr]

/-- C10 witness: on an empty store, creating a code with password `""`
and then resolving it without a credential gives the redirect. -/
theorem empty_password_resolves_open_w :
    ∃ qrs2,
      postApiQr id 0 { users := [], qrs := [] } "NEWCODE1"
        "https://example.com/" none (some "") none =
        (.created "NEWCODE1" "https://example.com/",
         { users := [], qrs := qrs2 }) ∧
      (∃ qr, findByCode qrs2 "NEWCODE1" = some qr ∧ qr.password = none) ∧
      (resolveCode id 1 qrs2 "NEWCODE1" none).1 =
        .redirect "https://example.com/" :=
  empty_password_resolves_open id 0 1 { users := [], qrs := [] } "NEWCODE1"
    "https://example.com/" (by decide) (by decide)

end LinkToQR
